import Mathlib

/-!
Shallow embedding of the PyFetch request execution core
(`src/PyFetch/http_client.py`, `src/PyFetch/cli.py`,
`src/PyFetch/exceptions.py`) and proofs about its retry engine,
streaming reader, progress gate, error taxonomy and CLI header parsing.

Python strings are modelled as Lean `String`, byte strings as `List Nat`,
Python `None`-able results as explicit constructors.  The external
`requests` transport is modelled as a function from the attempt index to
the outcome of that attempt's `requests.request` call.
-/

namespace PyFetch

/-- Exceptions that can cross `make_request`'s boundary.
`valueError` is Python's builtin `ValueError` (raised for an unsupported
method, and by `int()` on an unparseable string); `jsonDecodeError` is
`json.JSONDecodeError`; the remaining three are the classes of
`src/PyFetch/exceptions.py`. -/
inductive PyError where
  | valueError (msg : String)
  | jsonDecodeError (msg : String)
  | httpClientError (msg : String)
  | httpConnectionError (msg : String)
  | responseError (msg : String)
deriving DecidableEq, Repr

/-- Models `str(e)` for the modelled exceptions. -/
def PyError.message : PyError → String
  | .valueError m => m
  | .jsonDecodeError m => m
  | .httpClientError m => m
  | .httpConnectionError m => m
  | .responseError m => m

/-- The inheritance facts of `src/PyFetch/exceptions.py`:
`HTTPConnectionError` and `ResponseError` are subclasses of
`HTTPClientError`, which subclasses `Exception`.  Python's builtin
`ValueError` and `json.JSONDecodeError` are not `HTTPClientError`s. -/
def derivesFromHTTPClientError : PyError → Bool
  | .httpClientError _ => true
  | .httpConnectionError _ => true
  | .responseError _ => true
  | .valueError _ => false
  | .jsonDecodeError _ => false

/-- A `requests.Response` as the core uses it: status code, header
mapping, the body chunk stream served by `iter_content`, and the
buffered body `_content` (bytes as `List Nat`). -/
structure Response where
  status_code : Nat
  headers : List (String × String)
  chunks : List (List Nat)
  _content : List Nat
deriving DecidableEq, Repr

/-- Outcome of one `requests.request(...)` call: a response object, or
one of the `requests` exception classes that `make_request` catches
(`ConnectionError`, or another `RequestException`; `HTTPError` arises
later, from `raise_for_status`, and is modelled from the status code). -/
inductive TransportResult where
  | success (r : Response)
  | connError (msg : String)
  | reqExc (msg : String)
deriving DecidableEq, Repr

/-- Result of a `make_request` call: a returned response, a raised
exception, or Python's implicit `return None` when the attempt loop
runs zero times. -/
inductive RequestOutcome where
  | response (r : Response)
  | error (e : PyError)
  | none_
deriving DecidableEq, Repr

/-- Configuration set by `HTTPClient.__init__` (`timeout` is irrelevant to the
pure model and omitted; the transport absorbs it). -/
structure HTTPClient where
  retries : Nat := 3
  verbose : Bool := false
  show_progress : Bool := false
deriving DecidableEq, Repr

/-- Python `str.upper()` (ASCII case mapping suffices for the method
strings the core compares). -/
def pyUpper (s : String) : String :=
  String.mk (s.data.map Char.toUpper)

/-- Models `self.allowed_methods`, set identically by every `__init__`. -/
def allowed_methods : List String :=
  ["GET", "POST", "PUT", "PATCH", "DELETE", "HEAD", "OPTIONS"]

/-- Models `self.MIN_SIZE_FOR_PROGRESS = 5 * 1024 * 1024`. -/
def MIN_SIZE_FOR_PROGRESS : Int := 5 * 1024 * 1024

/-- A `tqdm` handle as the core observes it: construction arguments plus
the recorded `update`/`close` calls. -/
structure ProgressBar where
  total : Int
  desc : String
  updates : List Nat := []
  closed : Bool := false
deriving DecidableEq, Repr

/-- Models `HTTPClient._create_progress_bar`. -/
def create_progress_bar (c : HTTPClient) (total : Int) (desc : String) :
    Option ProgressBar :=
  if c.show_progress ∧ MIN_SIZE_FOR_PROGRESS ≤ total then
    some { total := total, desc := desc }
  else
    none

/-- Models `progress_bar.update(n)` when a bar is present. -/
def pbUpdate (pb : Option ProgressBar) (n : Nat) : Option ProgressBar :=
  match pb with
  | some b => some { b with updates := b.updates ++ [n] }
  | none => none

/-- Models `progress_bar.close()` when a bar is present. -/
def pbClose (pb : Option ProgressBar) : Option ProgressBar :=
  match pb with
  | some b => some { b with closed := true }
  | none => none

/-- The chunk loop of `HTTPClient._stream_response`: skip falsy (empty)
chunks, append the rest to `content`, forward lengths to the bar. -/
def streamLoop : Option ProgressBar → List Nat → List (List Nat) →
    List Nat × Option ProgressBar
  | pb, content, [] => (content, pb)
  | pb, content, ch :: rest =>
    if ch.isEmpty then
      streamLoop pb content rest
    else
      streamLoop (pbUpdate pb ch.length) (content ++ ch) rest

/-- Models `HTTPClient._stream_response`: returns the accumulated content and
the final state of the (closed) progress bar. -/
def stream_response (r : Response) (pb : Option ProgressBar) :
    List Nat × Option ProgressBar :=
  ((streamLoop pb [] r.chunks).1, pbClose (streamLoop pb [] r.chunks).2)

/-- Decimal value of a digit string. -/
def digitsToNat (l : List Char) : Nat :=
  l.foldl (fun acc ch => acc * 10 + (ch.toNat - 48)) 0

/-- Python `int(s)` on a string, as used for the `content-length`
header: optional surrounding whitespace, optional sign, then at least
one digit; anything else raises `ValueError` (`none` here). -/
def pyInt (s : String) : Option Int :=
  let t := s.data.dropWhile Char.isWhitespace
  let t := (t.reverse.dropWhile Char.isWhitespace).reverse
  let (sign, digits) : Int × List Char :=
    match t with
    | '-' :: rest => (-1, rest)
    | '+' :: rest => (1, rest)
    | _ => (1, t)
  if digits ≠ [] ∧ digits.all Char.isDigit then
    some (sign * digitsToNat digits)
  else
    none

/-- Models `headers.get(key)` on the response header mapping (first binding
wins, as in a Python dict where keys are unique). -/
def headersGet (hs : List (String × String)) (key : String) : Option String :=
  hs.lookup key

/-- Models `int(response.headers.get("content-length", 0))`: `0` when the
header is absent, the parsed value when present and parseable, and a
`ValueError` carrying the offending string otherwise. -/
def contentLengthTotal (hs : List (String × String)) : Except String Int :=
  match headersGet hs "content-length" with
  | none => .ok 0
  | some s =>
    match pyInt s with
    | some n => .ok n
    | none => .error s

/-- Models `str(e)` of the `requests.exceptions.HTTPError` raised by
`response.raise_for_status()` (reason phrase omitted: the model keeps
the status code and the url, which is all the core's messages use). -/
def raiseForStatusMessage (r : Response) (url : String) : String :=
  if r.status_code < 500 then
    toString r.status_code ++ " Client Error for url: " ++ url
  else
    toString r.status_code ++ " Server Error for url: " ++ url

/-- Whether `raise_for_status` raises `HTTPError`: exactly for 4xx/5xx codes. -/
def statusIsError (r : Response) : Bool :=
  400 ≤ r.status_code ∧ r.status_code < 600

/-- The body of `make_request`'s `try` block after `raise_for_status`
passed: for a GET with `show_progress`, read the declared total
(possibly raising `ValueError` from `int()`), gate the progress bar,
stream the body and overwrite `response._content`; otherwise return the
response unchanged. -/
def handleSuccess (c : HTTPClient) (method url : String) (r : Response) :
    RequestOutcome :=
  if pyUpper method == "GET" && c.show_progress then
    match contentLengthTotal r.headers with
    | .error s =>
      .error (.valueError ("invalid literal for int() with base 10: " ++ s))
    | .ok total =>
      let pb := create_progress_bar c total ("Downloading " ++ url)
      .response { r with _content := (stream_response r pb).1 }
  else
    .response r

/-- One iteration of the attempt loop, given that iteration's transport
outcome and whether `attempt == self.retries - 1`.  `some out` means the
iteration terminates `make_request` with `out` (a `return` or a
`raise`); `none` means the failure was swallowed and the loop continues. -/
def oneAttempt (c : HTTPClient) (method url : String) (t : TransportResult)
    (isLast : Bool) : Option RequestOutcome :=
  match t with
  | .success r =>
    if statusIsError r then
      if isLast then
        some (.error (.responseError
          ("HTTP error occurred: " ++ raiseForStatusMessage r url)))
      else
        none
    else
      some (handleSuccess c method url r)
  | .connError m =>
    if isLast then
      some (.error (.httpConnectionError
        ("Failed to connect to " ++ url ++ ": " ++ m)))
    else
      none
  | .reqExc m =>
    if isLast then
      some (.error (.httpClientError ("Request failed: " ++ m)))
    else
      none

/-- Models `for attempt in range(self.retries)`, run over the list of attempt
indices.  Returns the outcome together with the number of transport
invocations; an exhausted list is Python's implicit `return None`. -/
def runAttempts (c : HTTPClient) (method url : String)
    (tr : Nat → TransportResult) : List Nat → RequestOutcome × Nat
  | [] => (.none_, 0)
  | a :: rest =>
    match oneAttempt c method url (tr a) (a == c.retries - 1) with
    | some out => (out, 1)
    | none =>
      ((runAttempts c method url tr rest).1,
       (runAttempts c method url tr rest).2 + 1)

/-- Models the joined method list inside the unsupported-method
message. -/
def unsupportedMethodMessage : String :=
  "Unsupported HTTP method. Allowed methods: " ++
    String.intercalate ", " allowed_methods

/-- Models `HTTPClient.make_request`, with the external transport supplied as a
function from the attempt index to that attempt's outcome.  The forced
`stream=True` for GET is absorbed by the transport model (it only
affects how `requests` buffers, not any value the core observes).
Returns the outcome and the number of transport invocations. -/
def make_request (c : HTTPClient) (method url : String)
    (tr : Nat → TransportResult) : RequestOutcome × Nat :=
  if allowed_methods.contains (pyUpper method) = false then
    (.error (.valueError unsupportedMethodMessage), 0)
  else
    runAttempts c method url tr (List.range c.retries)

/-! CLI layer (`src/PyFetch/cli.py`). -/

/-- Python `str.strip()`: remove leading and trailing whitespace. -/
def pyStrip (s : String) : String :=
  String.mk
    (((s.data.dropWhile Char.isWhitespace).reverse.dropWhile
      Char.isWhitespace).reverse)

/-- Characters of the `-H` item before the first colon
(`item.split(":", 1)[0]`). -/
def headerKeyPart (item : String) : String :=
  String.mk (item.data.takeWhile (fun ch => ch ≠ ':'))

/-- Characters of the `-H` item after the first colon
(`item.split(":", 1)[1]`, defined when the item contains a colon). -/
def headerValuePart (item : String) : String :=
  String.mk ((item.data.dropWhile (fun ch => ch ≠ ':')).tail)

/-- Python dict assignment `d[k] = v` on an insertion-ordered
association list: overwrite in place, else append. -/
def dictSet : List (String × String) → String → String →
    List (String × String)
  | [], k, v => [(k, v)]
  | (k1, v1) :: rest, k, v =>
    if k1 = k then (k, v) :: rest else (k1, v1) :: dictSet rest k v

/-- One iteration of the header-parsing loop in `main`: items without a
colon are skipped, the rest are split at the first colon, both halves
stripped, and stored in the dict. -/
def parseHeaderItem (hs : List (String × String)) (item : String) :
    List (String × String) :=
  if item.data.contains ':' then
    dictSet hs (pyStrip (headerKeyPart item)) (pyStrip (headerValuePart item))
  else
    hs

/-- The whole header-parsing loop over the `-H` arguments in order. -/
def parseHeaders (items : List String) : List (String × String) :=
  items.foldl parseHeaderItem []

/-- What `main`'s `try/except` does when the request raised `e`:
`json.JSONDecodeError` and `HTTPClientError` are caught, printed to
standard output and turned into `sys.exit(1)`; anything else (such as
the `ValueError` for an unsupported method) propagates uncaught. -/
inductive CLIExceptResult where
  | exitOne (stdoutLines : List String)
  | uncaught (e : PyError)
deriving DecidableEq, Repr

/-- The two `except` clauses of `main` (the `json.JSONDecodeError`
branch also prints two fixed follow-up hint lines, elided here). -/
def cliExceptHandler (e : PyError) : CLIExceptResult :=
  match e with
  | .jsonDecodeError _ => .exitOne ["Error: Invalid JSON data"]
  | e =>
    if derivesFromHTTPClientError e then
      .exitOne ["Error: " ++ e.message]
    else
      .uncaught e

/-! Shared lemmas about the attempt loop and the streaming reader. -/

/-- An iteration never terminates the loop with Python's `None`. -/
theorem oneAttempt_ne_none_ (c : HTTPClient) (method url : String)
    (t : TransportResult) (b : Bool) (out : RequestOutcome)
    (h : oneAttempt c method url t b = some out) : out ≠ .none_ := by
  cases t with
  | success r =>
    unfold oneAttempt at h
    by_cases hs : statusIsError r = true
    · simp only [hs, if_true] at h
      cases b with
      | true => simp only [if_true] at h; simp [← Option.some_inj.mp h]
      | false => simp at h
    · simp only [Bool.not_eq_true] at hs
      simp only [hs, Bool.false_eq_true, if_false] at h
      rw [← Option.some_inj.mp h]
      unfold handleSuccess
      by_cases hg : (pyUpper method == "GET" && c.show_progress) = true
      · simp only [hg, if_true]
        cases contentLengthTotal r.headers <;> simp
      · simp only [Bool.not_eq_true] at hg
        simp [hg]
  | connError m =>
    cases b with
    | true => simp only [oneAttempt, if_true] at h; simp [← Option.some_inj.mp h]
    | false => simp [oneAttempt] at h
  | reqExc m =>
    cases b with
    | true => simp only [oneAttempt, if_true] at h; simp [← Option.some_inj.mp h]
    | false => simp [oneAttempt] at h

/-- On the final attempt every branch of the loop body terminates. -/
theorem oneAttempt_last_isSome (c : HTTPClient) (method url : String)
    (t : TransportResult) : (oneAttempt c method url t true).isSome = true := by
  cases t with
  | success r =>
    unfold oneAttempt
    by_cases hs : statusIsError r = true <;> simp [hs]
  | connError m => simp [oneAttempt]
  | reqExc m => simp [oneAttempt]

/-- Running the loop over the attempt indices `a, a+1, ..., retries-1`
when every non-final iteration swallows its failure: the loop performs
all remaining iterations and ends with whatever the final iteration
produces. -/
theorem runAttempts_lastOnly (c : HTTPClient) (method url : String)
    (tr : Nat → TransportResult) (out : RequestOutcome)
    (hfail : ∀ i, i < c.retries - 1 →
      oneAttempt c method url (tr i) false = none)
    (hlast : oneAttempt c method url (tr (c.retries - 1)) true = some out) :
    ∀ n a, a + n = c.retries → 1 ≤ n →
      runAttempts c method url tr (List.range' a n) = (out, n) := by
  intro n
  induction n with
  | zero => omega
  | succ k ih =>
    intro a ha _
    rw [List.range'_succ]
    by_cases hk : k = 0
    · subst hk
      have haeq : a = c.retries - 1 := by omega
      subst haeq
      simp only [List.range']
      unfold runAttempts
      rw [beq_self_eq_true, hlast]
    · have hane : (a == c.retries - 1) = false := by
        have : a ≠ c.retries - 1 := by omega
        simp [this]
      unfold runAttempts
      rw [hane, hfail a (by omega), ih (a + 1) (by omega) (by omega)]

/-- The loop over the remaining attempt indices always ends in a
terminal outcome (never Python's `None`) and performs at most one
transport invocation per remaining index. -/
theorem runAttempts_total (c : HTTPClient) (method url : String)
    (tr : Nat → TransportResult) :
    ∀ n a, a + n = c.retries → 1 ≤ n →
      (runAttempts c method url tr (List.range' a n)).1 ≠ .none_ ∧
      (runAttempts c method url tr (List.range' a n)).2 ≤ n := by
  intro n
  induction n with
  | zero => omega
  | succ k ih =>
    intro a ha _
    rw [List.range'_succ]
    unfold runAttempts
    by_cases hk : k = 0
    · subst hk
      have haeq : a = c.retries - 1 := by omega
      subst haeq
      rw [beq_self_eq_true]
      have hsome := oneAttempt_last_isSome c method url (tr (c.retries - 1))
      cases hres : oneAttempt c method url (tr (c.retries - 1)) true with
      | none => rw [hres] at hsome; simp at hsome
      | some out =>
        exact ⟨oneAttempt_ne_none_ c method url _ _ _ hres, Nat.le_refl 1⟩
    · cases hres : oneAttempt c method url (tr a) (a == c.retries - 1) with
      | some out =>
        exact ⟨oneAttempt_ne_none_ c method url _ _ _ hres,
          Nat.succ_le_succ (Nat.zero_le k)⟩
      | none =>
        have hrec := ih (a + 1) (by omega) (by omega)
        exact ⟨hrec.1, Nat.succ_le_succ hrec.2⟩

/-- The streaming loop appends exactly the non-empty chunks, in order,
to the running accumulator, whatever the progress-bar state. -/
theorem streamLoop_content (chunks : List (List Nat)) :
    ∀ pb acc, (streamLoop pb acc chunks).1 =
      acc ++ (chunks.filter (fun ch => !ch.isEmpty)).flatten := by
  induction chunks with
  | nil => intro pb acc; simp [streamLoop]
  | cons ch rest ih =>
    intro pb acc
    by_cases hch : ch.isEmpty = true
    · simp [streamLoop, hch, ih]
    · simp only [Bool.not_eq_true] at hch
      simp [streamLoop, hch, ih, List.append_assoc]

/-- The content returned by `_stream_response` is the concatenation of
the non-empty chunks, independent of the progress bar. -/
theorem stream_response_content (r : Response) (pb : Option ProgressBar) :
    (stream_response r pb).1 =
      (r.chunks.filter (fun ch => !ch.isEmpty)).flatten := by
  unfold stream_response
  simp [streamLoop_content]

/-- When the method is supported and at least one attempt runs, and the
first attempt's transport outcome terminates the loop whatever the
`isLast` flag says, `make_request` returns that outcome after exactly
one transport invocation. -/
theorem make_request_first_attempt (c : HTTPClient) (method url : String)
    (tr : Nat → TransportResult) (out : RequestOutcome)
    (hm : allowed_methods.contains (pyUpper method) = true)
    (h1 : 1 ≤ c.retries)
    (hout : ∀ b, oneAttempt c method url (tr 0) b = some out) :
    make_request c method url tr = (out, 1) := by
  unfold make_request
  rw [hm]
  simp only [Bool.true_eq_false, if_false]
  rw [List.range_eq_range']
  have hre : c.retries = (c.retries - 1) + 1 := by omega
  rw [hre, List.range'_succ]
  unfold runAttempts
  rw [hout]

/-- A transport outcome whose failure the loop swallows on a non-final
attempt: a `ConnectionError`, another `RequestException`, or a
transport-level success whose status makes `raise_for_status` raise. -/
def retryableFailure : TransportResult → Bool
  | .connError _ => true
  | .reqExc _ => true
  | .success r => statusIsError r

/-- On a non-final attempt, a retryable failure is swallowed and the
loop continues. -/
theorem oneAttempt_retryable (c : HTTPClient) (method url : String)
    (t : TransportResult) (h : retryableFailure t = true) :
    oneAttempt c method url t false = none := by
  cases t with
  | success r =>
    have hs : statusIsError r = true := h
    simp [oneAttempt, hs]
  | connError m => rfl
  | reqExc m => rfl

/-- Unfolded form of a loop iteration whose transport call produced a
response object. -/
theorem oneAttempt_success_eq (c : HTTPClient) (method url : String)
    (r : Response) (b : Bool) :
    oneAttempt c method url (.success r) b =
      (if statusIsError r then
        (if b then
          some (.error (.responseError
            ("HTTP error occurred: " ++ raiseForStatusMessage r url)))
        else none)
      else some (handleSuccess c method url r)) := rfl

/-- Success handling of a GET with `show_progress` enabled, when the
`content-length` total was computed without error. -/
theorem handleSuccess_get_ok (c : HTTPClient) (url : String) (r : Response)
    (total : Int) (hp : c.show_progress = true)
    (hcl : contentLengthTotal r.headers = .ok total) :
    handleSuccess c "GET" url r =
      .response { r with _content :=
        (stream_response r
          (create_progress_bar c total ("Downloading " ++ url))).1 } := by
  unfold handleSuccess
  rw [hp]
  rw [show (pyUpper "GET" == "GET" && true) = true from rfl]
  rw [if_pos rfl, hcl]

/-- Success handling of a GET with `show_progress` enabled, when the
`content-length` header is present but Python `int()` fails on it. -/
theorem handleSuccess_get_badlen (c : HTTPClient) (url : String)
    (r : Response) (s : String) (hp : c.show_progress = true)
    (hcl : contentLengthTotal r.headers = .error s) :
    handleSuccess c "GET" url r =
      .error (.valueError ("invalid literal for int() with base 10: " ++ s)) := by
  unfold handleSuccess
  rw [hp]
  rw [show (pyUpper "GET" == "GET" && true) = true from rfl]
  rw [if_pos rfl, hcl]

/-- Splitting a character list at its first colon: the part before, the
colon itself, and the part after reassemble to the original list, and
the part before is colon-free. -/
theorem split_at_first_colon (l : List Char) (h : l.contains ':' = true) :
    l = l.takeWhile (fun ch => ch ≠ ':') ++
        ':' :: (l.dropWhile (fun ch => ch ≠ ':')).tail ∧
    (l.takeWhile (fun ch => ch ≠ ':')).contains ':' = false := by
  induction l with
  | nil => simp at h
  | cons a t ih =>
    by_cases ha : a = ':'
    · subst ha
      simp [List.takeWhile, List.dropWhile]
    · have ht : t.contains ':' = true := by
        simp only [List.contains_cons] at h
        rcases Bool.or_eq_true_iff.mp h with h1 | h1
        · exact absurd (beq_iff_eq.mp h1) (fun he => ha he.symm)
        · exact h1
      have hrec := ih ht
      constructor
      · conv_lhs => rw [show t = _ from hrec.1]
        simp [List.takeWhile_cons, List.dropWhile_cons, ha]
      · simp only [List.takeWhile_cons, List.contains_cons]
        simp [ha]
        exact ⟨fun he => ha he.symm, by simpa using hrec.2⟩

/-- The streaming loop forwards to an existing bar exactly the lengths
of the non-empty chunks, in order. -/
theorem streamLoop_bar (chunks : List (List Nat)) :
    ∀ b acc, (streamLoop (some b) acc chunks).2 =
      some { b with updates :=
        b.updates ++ (chunks.filter (fun ch => !ch.isEmpty)).map List.length } := by
  induction chunks with
  | nil => intro b acc; simp [streamLoop]
  | cons ch rest ih =>
    intro b acc
    by_cases hch : ch.isEmpty = true
    · simp [streamLoop, hch, ih]
    · simp only [Bool.not_eq_true] at hch
      simp [streamLoop, hch, pbUpdate, ih, List.append_assoc]

/-- A 200 GET response whose `content-length` header value `abc` is not
parseable as an integer. -/
def respBadLen : Response where
  status_code := 200
  headers := [("content-length", "abc")]
  chunks := [[104, 105]]
  _content := []

/-- A 200 GET response with no `content-length` header and chunk stream
`[[1], [], [2]]`. -/
def respNoLen : Response where
  status_code := 200
  headers := []
  chunks := [[1], [], [2]]
  _content := []

/-! Claim theorems. -/

/-- C1: for every retry budget `N ≥ 1` and a supported method, when the
transport raises a connection-level error on every attempt,
`make_request` invokes the transport exactly N times and then raises
`HTTPConnectionError` whose message is built from the target URL and
the cause of the last (N-th) attempt; no error is surfaced before the
final attempt (all N attempts run). -/
theorem c1_connection_error_exhausts_budget (c : HTTPClient)
    (method url : String) (cause : Nat → String) (tr : Nat → TransportResult)
    (hm : allowed_methods.contains (pyUpper method) = true)
    (h1 : 1 ≤ c.retries)
    (htr : ∀ i, tr i = .connError (cause i)) :
    make_request c method url tr =
      (.error (.httpConnectionError
        ("Failed to connect to " ++ url ++ ": " ++ cause (c.retries - 1))),
       c.retries) := by
  unfold make_request
  rw [hm]
  simp only [Bool.true_eq_false, if_false]
  rw [List.range_eq_range']
  exact runAttempts_lastOnly c method url tr _
    (fun i _ => by rw [htr i]; rfl)
    (by rw [htr (c.retries - 1)]; rfl)
    c.retries 0 (Nat.zero_add _) h1

/-- C1 witness: a client with budget 3 and an always-refusing transport
makes exactly 3 transport calls and raises the connection error built
from the URL and the last cause. -/
theorem c1_connection_error_exhausts_budget_witness :
    make_request { retries := 3 } "GET" "https://example.test"
      (fun _ => .connError "connection refused") =
      (.error (.httpConnectionError
        "Failed to connect to https://example.test: connection refused"), 3) := by
  have h := c1_connection_error_exhausts_budget { retries := 3 } "GET"
    "https://example.test" (fun _ => "connection refused")
    (fun _ => .connError "connection refused") (by decide) (by decide)
    (fun _ => rfl)
  exact h.trans (by decide)

/-- C2 (amended): for every retry budget `N ≥ 2` and a supported
method, when every transport outcome before the final attempt is a
retryable failure (swallowed by a non-final iteration) and attempt N
yields a transport-level success with a non-error status whose success
handling produces `resp` (true in every case except a show-progress GET
with a present-but-unparseable `content-length` header, where `int()`
raises instead — see the counterexample), `make_request` returns `resp`
and the transport is invoked exactly N times. -/
theorem c2_success_after_retries (c : HTTPClient) (method url : String)
    (tr : Nat → TransportResult) (r resp : Response)
    (hm : allowed_methods.contains (pyUpper method) = true)
    (h2 : 2 ≤ c.retries)
    (hfail : ∀ i, i < c.retries - 1 → retryableFailure (tr i) = true)
    (hlast : tr (c.retries - 1) = .success r)
    (hst : statusIsError r = false)
    (hsucc : handleSuccess c method url r = .response resp) :
    make_request c method url tr = (.response resp, c.retries) := by
  unfold make_request
  rw [hm]
  simp only [Bool.true_eq_false, if_false]
  rw [List.range_eq_range']
  refine runAttempts_lastOnly c method url tr _
    (fun i hi => oneAttempt_retryable c method url (tr i) (hfail i hi))
    ?_ c.retries 0 (Nat.zero_add _) (by omega)
  rw [hlast]
  simp [oneAttempt, hst, hsucc]

/-- C2 witness: budget 2, connection error on attempt 1, plain success
on attempt 2: the successful response is returned after exactly 2
transport invocations. -/
theorem c2_success_after_retries_witness :
    make_request { retries := 2 } "POST" "https://example.test"
      (fun i => if i = 0 then .connError "refused"
        else .success { status_code := 200, headers := [], chunks := [], _content := [111, 107] }) =
      (.response { status_code := 200, headers := [], chunks := [], _content := [111, 107] }, 2) := by
  have h := c2_success_after_retries { retries := 2 } "POST" "https://example.test"
    (fun i => if i = 0 then .connError "refused"
      else .success { status_code := 200, headers := [], chunks := [], _content := [111, 107] })
    { status_code := 200, headers := [], chunks := [], _content := [111, 107] }
    { status_code := 200, headers := [], chunks := [], _content := [111, 107] }
    (by decide) (by decide)
    (fun i hi => by
      have h0 : i = 0 := Nat.lt_one_iff.mp hi
      rw [h0]; rfl)
    rfl rfl rfl
  exact h

/-- C2 counterexample: the frozen claim fails on the code.  Budget 2, a
retryable connection failure on attempt 1, and a 200 success on attempt
2 — satisfying the claim's antecedent — but the client is a
show-progress GET and the response carries `content-length: abc`, so
`make_request` raises the `ValueError` from `int()` after both
transport invocations instead of returning the successful response. -/
theorem c2_counterexample :
    make_request { retries := 2, show_progress := true } "GET"
      "https://example.test"
      (fun i => if i = 0 then .connError "refused"
        else .success respBadLen) =
      (.error (.valueError "invalid literal for int() with base 10: abc"), 2) := by
  decide

/-- C3: for every method string whose uppercased form is not in
`allowed_methods`, `make_request` fails immediately with the
`ValueError` for unsupported methods, before the attempt loop: the
transport is invoked zero times, whatever the retry budget. -/
theorem c3_invalid_method_fails_fast (c : HTTPClient) (method url : String)
    (tr : Nat → TransportResult)
    (hm : allowed_methods.contains (pyUpper method) = false) :
    make_request c method url tr =
      (.error (.valueError unsupportedMethodMessage), 0) := by
  unfold make_request
  rw [hm]
  rfl

/-- C3 witness: an arbitrary unsupported string such as `BREW` fails
immediately with zero transport invocations, even with a large budget. -/
theorem c3_invalid_method_fails_fast_witness :
    make_request { retries := 100 } "BREW" "https://example.test"
      (fun _ => .connError "never called") =
      (.error (.valueError unsupportedMethodMessage), 0) :=
  c3_invalid_method_fails_fast { retries := 100 } "BREW" "https://example.test"
    (fun _ => .connError "never called") (by decide)

/-- C5: for every retry budget `N ≥ 1`, `make_request` always reaches a
terminal state: the outcome is never Python's silent `None` (it is a
returned response or a raised `PyError`, i.e. one of `ValueError`,
`HTTPConnectionError`, `ResponseError` or `HTTPClientError`), and the
number of transport invocations never exceeds the budget. -/
theorem c5_terminal_state_within_budget (c : HTTPClient)
    (method url : String) (tr : Nat → TransportResult)
    (h1 : 1 ≤ c.retries) :
    (make_request c method url tr).1 ≠ .none_ ∧
    ((∃ rr, (make_request c method url tr).1 = .response rr) ∨
      (∃ e, (make_request c method url tr).1 = .error e)) ∧
    (make_request c method url tr).2 ≤ c.retries := by
  have h : (make_request c method url tr).1 ≠ .none_ ∧
      (make_request c method url tr).2 ≤ c.retries := by
    unfold make_request
    by_cases hm : allowed_methods.contains (pyUpper method) = false
    · rw [hm]
      exact ⟨by simp, Nat.zero_le _⟩
    · have hm1 : allowed_methods.contains (pyUpper method) = true := by
        simpa using hm
      rw [hm1]
      simp only [Bool.true_eq_false, if_false]
      rw [List.range_eq_range']
      exact runAttempts_total c method url tr c.retries 0 (Nat.zero_add _) h1
  refine ⟨h.1, ?_, h.2⟩
  cases hcase : (make_request c method url tr).1 with
  | response rr => exact Or.inl ⟨rr, rfl⟩
  | error e => exact Or.inr ⟨e, rfl⟩
  | none_ => exact absurd hcase h.1

/-- C5 witness: with budget 2 and a transport that keeps failing with a
generic request exception, the outcome is terminal and at most 2
transport calls happen. -/
theorem c5_terminal_state_within_budget_witness :
    (make_request { retries := 2 } "GET" "https://example.test"
      (fun _ => .reqExc "timeout")).1 ≠ .none_ ∧
    ((∃ rr, (make_request { retries := 2 } "GET" "https://example.test"
        (fun _ => .reqExc "timeout")).1 = .response rr) ∨
      (∃ e, (make_request { retries := 2 } "GET" "https://example.test"
        (fun _ => .reqExc "timeout")).1 = .error e)) ∧
    (make_request { retries := 2 } "GET" "https://example.test"
      (fun _ => .reqExc "timeout")).2 ≤ 2 :=
  c5_terminal_state_within_budget { retries := 2 } "GET"
    "https://example.test" (fun _ => .reqExc "timeout") (by decide)

/-- C10 (implicit): a client constructed with `retries = 0` runs the
attempt loop zero times, so `make_request` with a supported method
invokes the transport zero times and falls off the loop, returning
Python's `None` — neither a response nor a raised error. -/
theorem c10_zero_retries_returns_none (c : HTTPClient)
    (method url : String) (tr : Nat → TransportResult)
    (h0 : c.retries = 0)
    (hm : allowed_methods.contains (pyUpper method) = true) :
    make_request c method url tr = (.none_, 0) := by
  unfold make_request
  rw [hm]
  simp only [Bool.true_eq_false, if_false]
  rw [h0]
  rfl

/-- C10 witness: `retries = 0` with a supported method yields `None`
and zero transport invocations. -/
theorem c10_zero_retries_returns_none_witness :
    make_request { retries := 0 } "GET" "https://example.test"
      (fun _ => .connError "never called") = (.none_, 0) :=
  c10_zero_retries_returns_none { retries := 0 } "GET" "https://example.test"
    (fun _ => .connError "never called") rfl (by decide)

/-- C6: a progress reporter is instantiated iff `show_progress` is
enabled and the declared total is at least the 5 MiB threshold; with
`show_progress` enabled, a declared total of 6291456 bytes yields a
reporter and 1048576 bytes yields none. -/
theorem c6_progress_gate (c : HTTPClient) (total : Int) (desc : String) :
    ((create_progress_bar c total desc).isSome ↔
      (c.show_progress = true ∧ MIN_SIZE_FOR_PROGRESS ≤ total)) ∧
    (create_progress_bar { show_progress := true } 6291456 desc).isSome = true ∧
    create_progress_bar { show_progress := true } 1048576 desc = none := by
  refine ⟨?_, rfl, rfl⟩
  unfold create_progress_bar
  split
  case isTrue h => simpa using h
  case isFalse h => simpa using h

/-- C7: the byte buffer returned by the streaming reader is the
in-order concatenation of the non-empty chunks; empty chunks are
neither appended nor counted toward progress; and the buffer is
identical whether a progress reporter is present or absent (a bar only
accumulates the non-empty chunk lengths and is closed). -/
theorem c7_stream_buffer_independent_of_progress (r : Response)
    (pb pb2 : Option ProgressBar) (b : ProgressBar) :
    (stream_response r pb).1 =
      (r.chunks.filter (fun ch => !ch.isEmpty)).flatten ∧
    (stream_response r pb).1 = (stream_response r pb2).1 ∧
    (stream_response r (some b)).2 =
      some { b with
        updates := b.updates ++
          (r.chunks.filter (fun ch => !ch.isEmpty)).map List.length,
        closed := true } := by
  refine ⟨stream_response_content r pb, ?_, ?_⟩
  · rw [stream_response_content, stream_response_content]
  · unfold stream_response
    rw [streamLoop_bar]
    rfl

/-- C8 counterexample: with `show_progress` enabled, a successful GET
whose `content-length` header is present but unparseable makes
`make_request` raise a `ValueError` instead of defaulting the total to
0 — contradicting the claim that no error is raised for a malformed
`content-length`. -/
theorem c8_counterexample :
    make_request { retries := 1, show_progress := true } "GET"
      "https://example.test" (fun _ => .success respBadLen) =
      (.error (.valueError "invalid literal for int() with base 10: abc"), 1) := by
  decide

/-- C8 amended: on a successful GET with `show_progress` enabled, a
missing `content-length` header defaults the declared total to 0 and
the body is still streamed, accumulated and returned; but a present,
unparseable `content-length` raises a `ValueError` (Python `int()`
fails) instead of defaulting to 0. -/
theorem c8_content_length_default (c : HTTPClient) (url : String)
    (tr : Nat → TransportResult) (r : Response) (s : String)
    (h1 : 1 ≤ c.retries) (hp : c.show_progress = true)
    (h0 : tr 0 = .success r) (hst : statusIsError r = false) :
    (headersGet r.headers "content-length" = none →
      make_request c "GET" url tr =
        (.response { r with
          _content := (r.chunks.filter (fun ch => !ch.isEmpty)).flatten }, 1)) ∧
    (headersGet r.headers "content-length" = some s → pyInt s = none →
      make_request c "GET" url tr =
        (.error (.valueError
          ("invalid literal for int() with base 10: " ++ s)), 1)) := by
  constructor
  · intro habs
    refine make_request_first_attempt c "GET" url tr _ (by decide) h1 ?_
    intro b
    rw [h0, oneAttempt_success_eq, hst]
    simp only [Bool.false_eq_true, if_false]
    have hcl : contentLengthTotal r.headers = .ok 0 := by
      simp only [contentLengthTotal, habs]
    rw [handleSuccess_get_ok c url r 0 hp hcl]
    have hbar : create_progress_bar c 0 ("Downloading " ++ url) = none := by
      unfold create_progress_bar
      rw [if_neg]
      intro hand
      have h5 : (MIN_SIZE_FOR_PROGRESS : Int) ≤ 0 := hand.2
      unfold MIN_SIZE_FOR_PROGRESS at h5
      omega
    rw [hbar, stream_response_content]
  · intro hpre hbad
    refine make_request_first_attempt c "GET" url tr _ (by decide) h1 ?_
    intro b
    rw [h0, oneAttempt_success_eq, hst]
    simp only [Bool.false_eq_true, if_false]
    have hcl : contentLengthTotal r.headers = .error s := by
      simp only [contentLengthTotal, hpre, hbad]
    rw [handleSuccess_get_badlen c url r s hp hcl]

/-- C8 witness: a GET with `show_progress`, a 200 response without a
`content-length` header and chunk stream `[[1], [], [2]]` returns the
accumulated body `[1, 2]` after one transport call. -/
theorem c8_content_length_default_witness :
    make_request { retries := 2, show_progress := true } "GET"
      "https://example.test" (fun _ => .success respNoLen) =
      (.response { respNoLen with _content := [1, 2] }, 1) := by
  have h := (c8_content_length_default { retries := 2, show_progress := true }
    "https://example.test" (fun _ => .success respNoLen) respNoLen "unused"
    (by decide) rfl rfl rfl).1 rfl
  exact h.trans (by decide)

/-- C9: for a `-H` header item containing a colon, the part before the
first colon (the key part is colon-free and reassembles with the colon
and the remainder to the original item), stripped, becomes the key, and
the stripped remainder becomes the value; an item without a colon
contributes nothing to the header mapping. -/
theorem c9_header_parsing (item : String) :
    (item.data.contains ':' = true →
      item = headerKeyPart item ++ ":" ++ headerValuePart item ∧
      (headerKeyPart item).data.contains ':' = false ∧
      parseHeaders [item] =
        [(pyStrip (headerKeyPart item), pyStrip (headerValuePart item))]) ∧
    (item.data.contains ':' = false → parseHeaders [item] = []) := by
  constructor
  · intro h
    have hsplit := split_at_first_colon item.data h
    refine ⟨?_, hsplit.2, ?_⟩
    · apply String.ext
      show item.data =
        ((headerKeyPart item).data ++ (":" : String).data) ++
          (headerValuePart item).data
      rw [List.append_assoc]
      exact hsplit.1
    · show parseHeaderItem [] item = _
      unfold parseHeaderItem
      rw [h]
      rfl
  · intro h
    show parseHeaderItem [] item = _
    unfold parseHeaderItem
    rw [h]
    rfl

/-- C9 witness: `Authorization: Bearer xyz` yields key `Authorization`
and value `Bearer xyz`; `NoColonHere` contributes nothing. -/
theorem c9_header_parsing_witness :
    parseHeaders ["Authorization: Bearer xyz"] =
      [("Authorization", "Bearer xyz")] ∧
    parseHeaders ["NoColonHere"] = [] := by
  have h1 :=
    ((c9_header_parsing "Authorization: Bearer xyz").1 (by decide)).2.2
  have h2 := (c9_header_parsing "NoColonHere").2 (by decide)
  exact ⟨h1.trans (by decide), h2⟩

/-- C4 counterexample: the Invalid-Method error raised by
`make_request` is a builtin `ValueError`, which does not derive from
`HTTPClientError`, so `main`'s exception handler does not catch it (the
exception propagates uncaught instead of producing an `Error: `-prefixed
line with exit code 1). -/
theorem c4_counterexample :
    (make_request {} "BREW" "https://example.test"
      (fun _ => .connError "x")).1 =
      .error (.valueError unsupportedMethodMessage) ∧
    derivesFromHTTPClientError (.valueError unsupportedMethodMessage) = false ∧
    cliExceptHandler (.valueError unsupportedMethodMessage) =
      .uncaught (.valueError unsupportedMethodMessage) := by
  refine ⟨by decide, rfl, rfl⟩

/-- C4 amended: the classified errors `HTTPConnectionError`,
`ResponseError` and `HTTPClientError` derive from the `HTTPClientError`
base, and any such error reaching the CLI is printed as a single
`Error: `-prefixed line on standard output with exit code 1; the
Invalid-Method `ValueError`, however, does not derive from the base
class and is not caught by the CLI's handler. -/
theorem c4_error_taxonomy (m : String) :
    derivesFromHTTPClientError (.httpConnectionError m) = true ∧
    derivesFromHTTPClientError (.responseError m) = true ∧
    derivesFromHTTPClientError (.httpClientError m) = true ∧
    derivesFromHTTPClientError (.valueError m) = false ∧
    cliExceptHandler (.valueError m) = .uncaught (.valueError m) ∧
    (∀ e, derivesFromHTTPClientError e = true →
      cliExceptHandler e = .exitOne ["Error: " ++ e.message]) := by
  refine ⟨rfl, rfl, rfl, rfl, rfl, ?_⟩
  intro e he
  cases e with
  | valueError m2 => simp [derivesFromHTTPClientError] at he
  | jsonDecodeError m2 => simp [derivesFromHTTPClientError] at he
  | httpClientError m2 => simp [cliExceptHandler, he]
  | httpConnectionError m2 => simp [cliExceptHandler, he]
  | responseError m2 => simp [cliExceptHandler, he]

/-- C4 witness: a concrete classified error is caught by the CLI and
printed with the `Error: ` prefix before exit code 1. -/
theorem c4_error_taxonomy_witness :
    cliExceptHandler (.responseError "HTTP error occurred: boom") =
      .exitOne ["Error: HTTP error occurred: boom"] := by
  have h := (c4_error_taxonomy "HTTP error occurred: boom").2.2.2.2.2
    (.responseError "HTTP error occurred: boom") rfl
  exact h.trans (by decide)

end PyFetch
